import Mathlib

/-!
Verification of the license-gated rate limiter and HTTP gate of the
orb-scanner realtime API backend (source files api_server.py and app.py).

The embedding below translates the Python source directly:

* The module-level dict request_counts (api_server.py line 42) is an
  insertion-ordered association list with unique keys (RateMap).
* time.time() values are modelled as rationals; each call receives the
  current time as an explicit argument.
* Python exceptions are modelled with the PyResult type; a call that raises
  returns the exception together with the (unchanged) shared state.

A central fact of the source, reflected throughout: inside rate_limit_check
(api_server.py lines 54-74, app.py lines 32-50) the name request_counts is
assigned on the pruning line, which under Python scoping rules makes it a
local variable for the whole function body.  The right-hand side of that
very line reads request_counts.items() and therefore reads the still-unbound
local, so every call raises UnboundLocalError before touching any state.
The remaining lines 62-74 are unreachable; they are embedded separately as
rate_limit_body so that the intended per-key algorithm can be compared with
what the function actually does.
-/

/-- One value of the request_counts dict: a Python dict with keys
count and timestamp (api_server.py line 63). -/
structure RateEntry where
  count : Nat
  timestamp : ℚ
deriving DecidableEq

/-- The shared rate-limit map: credential string to its rate-window entry.
A Python dict, modelled as an insertion-ordered association list whose keys
are unique. -/
abbrev RateMap := List (String × RateEntry)

/-- Python dict read: d.get(k), first (and only) binding of the key. -/
def dictGet (m : RateMap) (k : String) : Option RateEntry :=
  match m with
  | [] => none
  | (k1, v1) :: rest => if k1 = k then some v1 else dictGet rest k

/-- Python dict write d[k] = v: overwrite in place when the key is present,
otherwise append at the end (insertion order). -/
def dictSet (m : RateMap) (k : String) (v : RateEntry) : RateMap :=
  match m with
  | [] => [(k, v)]
  | (k1, v1) :: rest => if k1 = k then (k, v) :: rest else (k1, v1) :: dictSet rest k v

/-- RATE_LIMIT_REQUESTS = 100 (api_server.py line 38, app.py line 23). -/
def RATE_LIMIT_REQUESTS : Nat := 100

/-- RATE_LIMIT_WINDOW = 60 seconds (api_server.py line 39, app.py line 24). -/
def RATE_LIMIT_WINDOW : ℚ := 60

/-- Splitting a character list at every occurrence of a separator, keeping
empty fields, as Python str.split with an explicit separator does. -/
def splitChars (sep : Char) : List Char → List (List Char)
  | [] => [[]]
  | c :: rest =>
    match splitChars sep rest with
    | [] => [[]]
    | field :: fields =>
      if c = sep then [] :: field :: fields else (c :: field) :: fields

/-- Parsing of the VALID_LICENSE_KEYS environment variable
(api_server.py line 35): the raw value split on commas.  Like Python's
str.split with a separator, splitting the empty string yields a list holding
one empty entry. -/
def parse_license_keys (env : String) : List String :=
  (splitChars ',' env.toList).map (fun cs => String.mk cs)

/-- The default allow-list, used when the environment variable is unset
(api_server.py line 35, app.py line 20). -/
def DEFAULT_VALID_LICENSE_KEYS : List String :=
  parse_license_keys "test-license-123,prod-license-456"

/-- validate_license_key (api_server.py lines 48-52, app.py lines 27-30).
The header value may be absent (None).  The source first tests
`if not license_key`, which is true for None and for the empty string, and
only then tests membership in the allow-list.  The function reads no mutable
state and writes none; it is embedded as a pure function of the allow-list
and the presented credential. -/
def validate_license_key (VALID_LICENSE_KEYS : List String)
    (license_key : Option String) : Bool :=
  match license_key with
  | none => false
  | some s => if s = "" then false else VALID_LICENSE_KEYS.contains s

/-- Outcome of a Python call: a returned value, or an uncaught exception.
The only exception the limiter can raise is reading a local variable before
its first assignment. -/
inductive PyResult (α : Type) where
  | ok (a : α)
  | unboundLocalError (name : String)
deriving DecidableEq

/-- The pruning comprehension of api_server.py line 60 as an operation on a
map value: keep the entries whose timestamp is strictly greater than
window_start. -/
def prune (window_start : ℚ) (m : RateMap) : RateMap :=
  m.filter (fun kv => window_start < kv.2.timestamp)

/-- Lines 62-74 of api_server.py (lines 38-50 of app.py) as an operation on
a map value: the per-key algorithm applied after the pruning line.  If the
key is absent, or its stored timestamp is strictly older than
current_time - RATE_LIMIT_WINDOW, reset the entry to count 1 at
current_time and allow; otherwise reject when the count has reached
RATE_LIMIT_REQUESTS, else increment the count and allow.  In the source
these lines are unreachable (see rate_limit_check); they are embedded here
so the intended algorithm can be stated and compared. -/
def rate_limit_body (license_key : String) (current_time : ℚ)
    (request_counts : RateMap) : Bool × RateMap :=
  let window_start := current_time - RATE_LIMIT_WINDOW
  match dictGet request_counts license_key with
  | none => (true, dictSet request_counts license_key ⟨1, current_time⟩)
  | some entry =>
    if entry.timestamp < window_start then
      (true, dictSet request_counts license_key ⟨1, current_time⟩)
    else if RATE_LIMIT_REQUESTS ≤ entry.count then
      (false, request_counts)
    else
      (true, dictSet request_counts license_key ⟨entry.count + 1, entry.timestamp⟩)

/-- rate_limit_check (api_server.py lines 54-74, app.py lines 32-50).

The body assigns the name request_counts on the pruning line, so Python
treats the name as a local variable throughout the function; the module
global of the same name is never read or written by this function.  The
pruning line evaluates request_counts.items() on its right-hand side, a read
of the still-unbound local, so the call raises UnboundLocalError there, on
every input and in every state.  Lines 62-74 never execute, and the shared
map is returned exactly as it was. -/
def rate_limit_check (license_key : String) (current_time : ℚ)
    (shared : RateMap) : PyResult Bool × RateMap :=
  (PyResult.unboundLocalError "request_counts", shared)

/-- Response bodies the gate, the health endpoint and the error handlers
produce.  errorMsg m stands for the JSON object with single field error
holding m; healthBody records the five fields of the health response
(api_server.py lines 234-240); payload stands for any upstream passthrough
body a protected handler may return. -/
inductive Body where
  | errorMsg (msg : String)
  | healthBody (status : String) (timestamp : ℚ) (polygon_api_configured : Bool)
      (finnhub_api_configured : String) (message : String)
  | payload (data : String)
deriving DecidableEq

/-- An HTTP response: status code and body. -/
structure HttpResponse where
  status : Nat
  body : Body
deriving DecidableEq

/-- The health body with its timestamp field replaced by a fixed value, used
to compare two health responses up to their timestamps. -/
def bodyTimestampCleared : Body → Body
  | Body.healthBody s _ p f m => Body.healthBody s 0 p f m
  | b => b

/-- The gate wrapped around every protected endpoint by the require_license
decorator (api_server.py lines 76-89, app.py lines 52-65), composed with
Flask error translation: an invalid or absent X-License-Key header returns
401 before the rate limiter is consulted; a False from rate_limit_check
returns 429; an uncaught exception from rate_limit_check becomes the
registered 500 handler's response (api_server.py lines 355-357); only a True
reaches the wrapped handler. -/
def require_license_gate (VALID_LICENSE_KEYS : List String)
    (license_header : Option String) (now : ℚ) (m : RateMap)
    (handler : RateMap → HttpResponse × RateMap) : HttpResponse × RateMap :=
  if validate_license_key VALID_LICENSE_KEYS license_header = false then
    (⟨401, Body.errorMsg "Invalid license key"⟩, m)
  else
    match license_header with
    | none => (⟨401, Body.errorMsg "Invalid license key"⟩, m)
    | some license_key =>
      match rate_limit_check license_key now m with
      | (PyResult.ok true, m1) => handler m1
      | (PyResult.ok false, m1) => (⟨429, Body.errorMsg "Rate limit exceeded"⟩, m1)
      | (PyResult.unboundLocalError _, m1) =>
          (⟨500, Body.errorMsg "Internal server error"⟩, m1)

/-- A sequence of requests through the gate from one credential header, one
request per listed arrival time, threading the shared map. -/
def runRequests (VALID_LICENSE_KEYS : List String) (license_header : Option String)
    (handler : RateMap → HttpResponse × RateMap) (times : List ℚ) (m : RateMap) :
    List HttpResponse × RateMap :=
  match times with
  | [] => ([], m)
  | t :: ts =>
    let step := require_license_gate VALID_LICENSE_KEYS license_header t m handler
    let rest := runRequests VALID_LICENSE_KEYS license_header handler ts step.2
    (step.1 :: rest.1, rest.2)

/-- The health endpoint handler (api_server.py lines 231-240): always 200,
with a body whose fields do not depend on any request header or on the
rate-limit map.  bool of the Polygon key is its nonemptiness. -/
def health_check (POLYGON_API_KEY : String) (now : ℚ) : HttpResponse :=
  ⟨200, Body.healthBody "healthy" now (POLYGON_API_KEY != "") "local_gui"
      "Finnhub API key is handled locally in the GUI"⟩

/-- The routes registered by the application (api_server.py lines 231-324).
The four dynamic routes carry their symbol path segment. -/
inductive Route where
  | health
  | gainers
  | losers
  | historical (symbol : String)
  | floatData (symbol : String)
  | news (symbol : String)
  | volume (symbol : String)
deriving DecidableEq

/-- Whether the first character list is an initial segment of the second. -/
def isPrefixChars : List Char → List Char → Bool
  | [], _ => true
  | _ :: _, [] => false
  | a :: as, b :: bs => if a = b then isPrefixChars as bs else false

/-- Matching of one dynamic route pattern: the path must extend the fixed
part by one nonempty segment holding no further slash, as Flask's default
path converter for a route variable requires. -/
def matchSeg (pre : String) (path : String) : Option String :=
  if isPrefixChars pre.toList path.toList then
    let seg := path.toList.drop pre.toList.length
    if seg = [] then none
    else if seg.contains '/' then none
    else some (String.mk seg)
  else none

/-- The routing table: which registered route, if any, a request path hits.
A path hitting no route is handled by the registered 404 handler. -/
def matchRoute (path : String) : Option Route :=
  if path = "/api/health" then some Route.health
  else if path = "/api/gainers" then some Route.gainers
  else if path = "/api/losers" then some Route.losers
  else
    match matchSeg "/api/historical/" path with
    | some s => some (Route.historical s)
    | none =>
    match matchSeg "/api/float/" path with
    | some s => some (Route.floatData s)
    | none =>
    match matchSeg "/api/news/" path with
    | some s => some (Route.news s)
    | none =>
    match matchSeg "/api/volume/" path with
    | some s => some (Route.volume s)
    | none => none

/-- Server configuration read from the environment at startup
(api_server.py lines 28-35). -/
structure Config where
  POLYGON_API_KEY : String
  VALID_LICENSE_KEYS : List String

/-- Request dispatch: route the path; an unmatched path goes to the 404
handler (api_server.py lines 351-353); the health route answers directly,
without the license decorator; every other registered route sits behind
require_license_gate.  The bodies of the protected handlers perform
upstream HTTP calls and are abstracted as the handlers argument; none of
the theorems below depends on them. -/
def app_dispatch (cfg : Config) (handlers : Route → RateMap → HttpResponse × RateMap)
    (path : String) (license_header : Option String) (now : ℚ) (m : RateMap) :
    HttpResponse × RateMap :=
  match matchRoute path with
  | none => (⟨404, Body.errorMsg "Endpoint not found"⟩, m)
  | some Route.health => (health_check cfg.POLYGON_API_KEY now, m)
  | some r => require_license_gate cfg.VALID_LICENSE_KEYS license_header now m (handlers r)

/-- The shared map after a sequence of rate_limit_check calls, each given by
a credential and an arrival time. -/
def runCalls (calls : List (String × ℚ)) (m : RateMap) : RateMap :=
  match calls with
  | [] => m
  | c :: cs => runCalls cs (rate_limit_check c.1 c.2 m).2

/-- A rate-limit map is reachable when some sequence of rate_limit_check
calls produces it from the empty initial map (api_server.py line 42). -/
def ReachableRateMap (m : RateMap) : Prop :=
  ∃ calls : List (String × ℚ), runCalls calls [] = m

/-- A fixed stand-in for a protected endpoint body that succeeds upstream;
the theorems quantifying over handlers use arbitrary ones instead. -/
def okHandler : RateMap → HttpResponse × RateMap :=
  fun m => (⟨200, Body.payload "data"⟩, m)

/-- No sequence of rate_limit_check calls changes the shared map: each call
raises before reaching any statement that could write to it. -/
theorem runCalls_preserves (calls : List (String × ℚ)) (m : RateMap) :
    runCalls calls m = m := by
  induction calls with
  | nil => rfl
  | cons c cs ih => exact ih

/-- C1: the claim states rate_limit_check follows the per-key
reset-or-count algorithm.  Evaluating the code at a first request from the
default test credential on the empty map: the call raises UnboundLocalError
(the local request_counts is read before its assignment on the pruning line)
and inserts nothing, whereas the claimed algorithm, embedded from the
unreachable lines 62-74 as rate_limit_body, would allow the request and
store the entry with count 1 at the current time. -/
theorem rate_limit_check_first_request_raises :
    rate_limit_check "test-license-123" 0 [] =
      (PyResult.unboundLocalError "request_counts", []) ∧
    rate_limit_body "test-license-123" 0 [] =
      (true, [("test-license-123", ⟨1, 0⟩)]) :=
  ⟨rfl, rfl⟩

/-- C2: a rate_limit_check call leaves the shared map exactly as it was, so
the pruning comprehension never removes an entry from the shared state, an
entry for a credential that stops sending requests stays in the map, and no
entry is ever changed except through that key's own branches (vacuously: the
call raises before reaching them, so no shared entry ever changes at all). -/
theorem rate_limit_check_shared_map_unchanged
    (license_key : String) (t : ℚ) (m : RateMap) :
    (rate_limit_check license_key t m).2 = m ∧
    ∀ k, dictGet (rate_limit_check license_key t m).2 k = dictGet m k :=
  ⟨rfl, fun _ => rfl⟩

/-- C3: validate_license_key returns valid exactly when the header is
present, non-empty and a member of the allow-list.  The check is embedded as
a pure function because the source reads only its argument and the constant
allow-list and writes nothing, so it cannot touch the rate-limit map. -/
theorem validate_license_key_iff (keys : List String) (license_key : Option String) :
    validate_license_key keys license_key = true ↔
      ∃ s, license_key = some s ∧ s ≠ "" ∧ s ∈ keys := by
  cases license_key with
  | none => simp [validate_license_key]
  | some s =>
    by_cases h : s = "" <;> simp [validate_license_key, h]

/-- C4: the claim says that for a valid credential the 101st request inside
one window returns 429 with the rate-limit error body.  Evaluating 101
requests from the allow-listed test credential, all at the same instant,
from the empty map: every one of the 101 responses, the 101st included, is
500 with the internal-server-error body, because rate_limit_check raises on
each call and the registered 500 handler answers; no request ever receives
the 429 response the claim requires. -/
theorem rate_limited_sequence_all_500 :
    (runRequests DEFAULT_VALID_LICENSE_KEYS (some "test-license-123") okHandler
        (List.replicate 101 (0 : ℚ)) []).1 =
      List.replicate 101 ⟨500, Body.errorMsg "Internal server error"⟩ ∧
    (⟨500, Body.errorMsg "Internal server error"⟩ : HttpResponse) ≠
      ⟨429, Body.errorMsg "Rate limit exceeded"⟩ := by
  refine ⟨?_, by decide⟩
  rfl

/-- C5: the claim says a request arriving strictly after the end of an
exhausted window is allowed again with a reset counter.  Evaluating the code
at such a request (count 100 stored at time 0, request at time 61): the call
raises UnboundLocalError and leaves the entry untouched, whereas the claimed
reset behaviour, embedded from the unreachable lines 66-68 as part of
rate_limit_body, would allow and reset the entry to count 1 at time 61. -/
theorem window_reset_request_raises :
    rate_limit_check "test-license-123" 61 [("test-license-123", ⟨100, 0⟩)] =
      (PyResult.unboundLocalError "request_counts",
        [("test-license-123", ⟨100, 0⟩)]) ∧
    rate_limit_body "test-license-123" 61 [("test-license-123", ⟨100, 0⟩)] =
      (true, [("test-license-123", ⟨1, 61⟩)]) := by
  refine ⟨rfl, ?_⟩
  norm_num [rate_limit_body, dictGet, dictSet, RATE_LIMIT_WINDOW, RATE_LIMIT_REQUESTS]

/-- C6: every rate-limit map reachable from the empty initial map through
rate_limit_check calls has pairwise distinct credentials, every stored count
stays at or below RATE_LIMIT_REQUESTS, and a request against a full entry is
never allowed and never changes the map.  (Since every call raises before
writing, the empty map is the only reachable state.) -/
theorem reachable_rate_map_invariant (m : RateMap) (h : ReachableRateMap m) :
    (m.map Prod.fst).Nodup ∧
    (∀ p ∈ m, p.2.count ≤ RATE_LIMIT_REQUESTS) ∧
    (∀ k t e, dictGet m k = some e → RATE_LIMIT_REQUESTS ≤ e.count →
      (rate_limit_check k t m).1 ≠ PyResult.ok true ∧
      (rate_limit_check k t m).2 = m) := by
  obtain ⟨calls, hc⟩ := h
  rw [runCalls_preserves] at hc
  subst hc
  refine ⟨List.nodup_nil, ?_, ?_⟩
  · intro p hp
    cases hp
  · intro k t e hget hcount
    constructor
    · intro hcontra
      cases hcontra
    · rfl

/-- Witness for C6 at the empty map, reachable through the empty call
sequence. -/
theorem reachable_rate_map_invariant_witness :
    ReachableRateMap [] ∧
    ((([] : RateMap).map Prod.fst).Nodup ∧
    (∀ p ∈ ([] : RateMap), p.2.count ≤ RATE_LIMIT_REQUESTS) ∧
    (∀ k t e, dictGet [] k = some e → RATE_LIMIT_REQUESTS ≤ e.count →
      (rate_limit_check k t []).1 ≠ PyResult.ok true ∧
      (rate_limit_check k t []).2 = [])) :=
  ⟨⟨[], rfl⟩, reachable_rate_map_invariant [] ⟨[], rfl⟩⟩

/-- C7: a request to any protected route (every registered route other than
the health route) whose credential fails validation, the absent-header case
included, is answered 401 with the invalid-license body, and the rate-limit
map is returned unchanged: the gate returns before the rate limiter is
consulted. -/
theorem invalid_license_rejected_401 (cfg : Config)
    (handlers : Route → RateMap → HttpResponse × RateMap)
    (path : String) (license_header : Option String) (t : ℚ) (m : RateMap)
    (r : Route) (hr : matchRoute path = some r) (hh : r ≠ Route.health)
    (hv : validate_license_key cfg.VALID_LICENSE_KEYS license_header = false) :
    app_dispatch cfg handlers path license_header t m =
      (⟨401, Body.errorMsg "Invalid license key"⟩, m) := by
  unfold app_dispatch
  rw [hr]
  cases r
  · exact absurd rfl hh
  all_goals simp [require_license_gate, hv]

/-- Witness for C7: a credential outside the default allow-list presented to
the gainers route. -/
theorem invalid_license_rejected_401_witness :
    matchRoute "/api/gainers" = some Route.gainers ∧
    Route.gainers ≠ Route.health ∧
    validate_license_key DEFAULT_VALID_LICENSE_KEYS (some "wrong-key") = false ∧
    app_dispatch ⟨"", DEFAULT_VALID_LICENSE_KEYS⟩ (fun _ => okHandler)
        "/api/gainers" (some "wrong-key") 0 [] =
      (⟨401, Body.errorMsg "Invalid license key"⟩, []) :=
  ⟨by decide, by decide, by decide,
    invalid_license_rejected_401 ⟨"", DEFAULT_VALID_LICENSE_KEYS⟩ (fun _ => okHandler)
      "/api/gainers" (some "wrong-key") 0 [] Route.gainers (by decide) (by decide)
      (by decide)⟩

/-- C8: a request whose path matches no registered route is answered by the
registered 404 handler with the endpoint-not-found body, and the rate-limit
map is returned unchanged. -/
theorem unknown_route_404 (cfg : Config)
    (handlers : Route → RateMap → HttpResponse × RateMap)
    (path : String) (license_header : Option String) (t : ℚ) (m : RateMap)
    (h : matchRoute path = none) :
    app_dispatch cfg handlers path license_header t m =
      (⟨404, Body.errorMsg "Endpoint not found"⟩, m) := by
  unfold app_dispatch
  rw [h]

/-- Witness for C8: the path of the spec's example request, GET /nope. -/
theorem unknown_route_404_witness :
    matchRoute "/nope" = none ∧
    app_dispatch ⟨"", DEFAULT_VALID_LICENSE_KEYS⟩ (fun _ => okHandler)
        "/nope" none 0 [] =
      (⟨404, Body.errorMsg "Endpoint not found"⟩, []) :=
  ⟨by decide,
    unknown_route_404 ⟨"", DEFAULT_VALID_LICENSE_KEYS⟩ (fun _ => okHandler)
      "/nope" none 0 [] (by decide)⟩

/-- C9: whatever the configured allow-list, the empty credential is
invalid, although setting the VALID_LICENSE_KEYS environment variable to the
empty string produces an allow-list holding exactly the empty entry: the
emptiness test on line 50 returns before reaching the membership test. -/
theorem empty_credential_always_invalid :
    (∀ keys : List String, validate_license_key keys (some "") = false) ∧
    parse_license_keys "" = [""] ∧
    "" ∈ parse_license_keys "" := by
  refine ⟨fun keys => rfl, by decide, by decide⟩

/-- C10: two health requests differing in their X-License-Key header (and
their arrival times) receive the same status and the same body apart from
the timestamp field, the rate-limit map is returned unchanged, and the
response is exactly the health body, produced without consulting the license
gate or the limiter. -/
theorem health_ignores_license_header (cfg : Config)
    (handlers : Route → RateMap → HttpResponse × RateMap)
    (h1 h2 : Option String) (t1 t2 : ℚ) (m : RateMap) :
    (app_dispatch cfg handlers "/api/health" h1 t1 m).1.status =
      (app_dispatch cfg handlers "/api/health" h2 t2 m).1.status ∧
    bodyTimestampCleared (app_dispatch cfg handlers "/api/health" h1 t1 m).1.body =
      bodyTimestampCleared (app_dispatch cfg handlers "/api/health" h2 t2 m).1.body ∧
    (app_dispatch cfg handlers "/api/health" h1 t1 m).2 = m ∧
    app_dispatch cfg handlers "/api/health" h1 t1 m =
      (health_check cfg.POLYGON_API_KEY t1, m) :=
  ⟨rfl, rfl, rfl, rfl⟩
